import Mathlib

/-!
Verification of the `My_AHW_2015` notebook (Bayesian SN cosmology hack).

The repository is a single Jupyter notebook.  Every definition below is a
shallow embedding of a notebook code cell (or of a numpy/pandas primitive the
cell calls), translated line by line from the source.  Randomness is made
explicit: each `np.random.*` call consumes one coordinate of an explicitly
passed draw stream (`ℕ → ℚ`), so a seeded run corresponds to a fixed stream.
Machine floats are modelled as rationals.
-/

namespace SN

/-- Cell 8: `size_we_want = 250`. -/
def size_we_want : ℕ := 250

/-- Cell 10: `x1_true_dist = np.random.normal(loc=0, scale=1, size=size_we_want)`.
The stream `g` is the standard-normal draw stream, so a draw with
`loc=0, scale=1` is the stream value itself (`loc + scale * g i`). -/
def x1_true_dist (g : ℕ → ℚ) (i : ℕ) : ℚ := 0 + 1 * g i

/-- Cell 12: `x1_obs_unc = 0.5*np.ones_like(x1_true_dist)` — a constant 0.5 per object. -/
def x1_obs_unc : ℚ := 1/2

/-- Cell 12: `x1_obs_dist = x1_true_dist + x1_obs_unc*np.random.normal(loc=0, scale=1, size=size_we_want)`.
`gn` is the fresh standard-normal stream consumed by this call. -/
def x1_obs_dist (g gn : ℕ → ℚ) (i : ℕ) : ℚ := x1_true_dist g i + x1_obs_unc * gn i

/-- Cell 14: `c_true_norm = np.random.normal(loc=0, scale=0.1, size=size_we_want)`:
a draw with `loc=0, scale=0.1` is `0 + (1/10) * gc i` for the standard stream `gc`. -/
def c_true_norm (gc : ℕ → ℚ) (i : ℕ) : ℚ := 0 + (1/10) * gc i

/-- Cell 14: `c_true_exp = np.random.exponential(scale=0.1/1, size=size_we_want)`:
a scale-`s` exponential draw is `s * ge i` for the standard-exponential stream `ge`. -/
def c_true_exp (ge : ℕ → ℚ) (i : ℕ) : ℚ := (1/10) * ge i

/-- Cell 14: `c_true_dist = np.add(c_true_norm, c_true_exp)`. -/
def c_true_dist (gc ge : ℕ → ℚ) (i : ℕ) : ℚ := c_true_norm gc i + c_true_exp ge i

/-- Cell 14: `c_obs_unc = 0.5*np.ones_like(c_true_dist)` — a constant 0.5 per object.
(The notebook's quoted text says the `c` uncertainty is 0.05, but the code uses 0.5.) -/
def c_obs_unc : ℚ := 1/2

/-- Cell 14: `c_obs_dist = c_true_dist + c_obs_unc*np.random.normal(loc=0, scale=1, size=size_we_want)`. -/
def c_obs_dist (gc ge gcn : ℕ → ℚ) (i : ℕ) : ℚ := c_true_dist gc ge i + c_obs_unc * gcn i

/-- Cell 16: `z_dist = np.random.uniform(0.2, 1.0, size=size_we_want)`:
a uniform draw on `[low, high)` is `low + (high - low) * u i` for the standard-uniform
stream `u` (each `u i` lies in `[0, 1)`). -/
def z_dist (u : ℕ → ℚ) (i : ℕ) : ℚ := 1/5 + (1 - 1/5) * u i

/-- Cell 18: `alpha = 0.13`. -/
def alpha : ℚ := 13/100

/-- Cell 18: `beta = 3.0`. -/
def beta : ℚ := 3

/-- Cell 18: `MB = -19.1`. -/
def MB : ℚ := -191/10

/-- Cell 18: `Omega_m = 0.3`. -/
def Omega_m : ℚ := 3/10

/-- Cell 18: `sigma_int = 0.15`. -/
def sigma_int : ℚ := 3/20

/-- Cell 22, line 1: `mb_true_mean = MB - alpha*x1_true_dist + beta*c_true_dist + mu_dist`.
`mu_dist` comes from astropy (`cosmo.distmod(z_dist).value`, cell 20), an external
library call, so the distance-modulus values are taken as an input stream `mu`. -/
def mb_true_mean (g gc ge mu : ℕ → ℚ) (i : ℕ) : ℚ :=
  MB - alpha * x1_true_dist g i + beta * c_true_dist gc ge i + mu i

/-- Cell 22, line 2: `mb_true_var = sigma_int**2`. -/
def mb_true_var : ℚ := sigma_int ^ 2

/-- Cell 24 (markdown, the quoted mock-data code the notebook says it would run):
`mb_obs_unc = 0.05*np.ones_like(mb_true_dist)` — a constant 0.05 per object. -/
def mb_obs_unc : ℚ := 1/20

/-- Cell 24 (markdown): `mb_obs_dist = mb_true_dist + mb_obs_unc*np.random.normal(loc=0, scale=1, size=size_we_want)`.
`mbt` stands for the (never actually assigned) `mb_true_dist` values. -/
def mb_obs_dist (mbt gmn : ℕ → ℚ) (i : ℕ) : ℚ := mbt i + mb_obs_unc * gmn i

end SN

namespace NpModel

/-!
Validation behaviour of the numpy draw primitives the notebook calls.
numpy raises `ValueError` when a Gaussian or exponential `scale` is strictly
negative; `scale = 0` is accepted and yields a degenerate draw.  The notebook
itself performs no validation of its own and defines no error type, so the
only error constructor is numpy's `ValueError`. -/

/-- The only failure the notebook's draws can produce: numpy's `ValueError`.
The repository defines no `InvalidParameter` (or any other) error. -/
inductive NpError where
  | valueError
deriving DecidableEq

/-- `np.random.normal(loc, scale)` applied to one standard-normal draw:
rejects `scale < 0` with `ValueError`, otherwise returns `loc + scale * draw`. -/
def np_random_normal (loc scale draw : ℚ) : Except NpError ℚ :=
  if scale < 0 then .error .valueError else .ok (loc + scale * draw)

/-- `np.random.exponential(scale)` applied to one standard-exponential draw:
rejects `scale < 0` with `ValueError`, otherwise returns `scale * draw`. -/
def np_random_exponential (scale draw : ℚ) : Except NpError ℚ :=
  if scale < 0 then .error .valueError else .ok (scale * draw)

/-- `np.random.uniform(low, high)` applied to one standard-uniform draw:
numpy performs no domain validation here. -/
def np_random_uniform (low high u : ℚ) : ℚ := low + (high - low) * u

/-- Cell 14's colour-population generation with the scale (the literal `0.1` in
the source, the population width `w_c` of the model) left as the parameter `w`,
threaded through numpy's domain checks:
`np.random.normal(loc=0, scale=w)` plus `np.random.exponential(scale=w)`. -/
def c_true_gen (w gdraw edraw : ℚ) : Except NpError ℚ :=
  match np_random_normal 0 w gdraw with
  | .error e => .error e
  | .ok a =>
    match np_random_exponential w edraw with
    | .error e => .error e
    | .ok b => .ok (a + b)

end NpModel

namespace PdModel

/-!
The pandas fragments of cells 25 and 32–34.  A `DataFrame` is its row count
together with its ordered (column name, column values) pairs.  Assigning a
scalar to a column (`df[name] = v`) broadcasts the scalar over the rows,
replacing the column in place when the name exists and appending it at the
end otherwise — exactly pandas' behaviour for the notebook's unique names. -/

/-- A pandas data frame: a row count and ordered named columns of floats. -/
structure DataFrame where
  nrows : ℕ
  cols : List (String × List ℚ)
deriving DecidableEq

/-- Replace the first column named `name` by `w`, or append `(name, w)` at
the end when no column has that name — `df[name] = ...` for unique names. -/
def setColAux : List (String × List ℚ) → String → List ℚ → List (String × List ℚ)
  | [], name, w => [(name, w)]
  | p :: rest, name, w =>
    if p.1 = name then (name, w) :: rest else p :: setColAux rest name w

/-- Value of the first column named `name` (`[]` when absent). -/
def getColAux : List (String × List ℚ) → String → List ℚ
  | [], _ => []
  | p :: rest, name => if p.1 = name then p.2 else getColAux rest name

/-- `df[name] = v` for a scalar `v`: broadcast over the rows. -/
def setCol (df : DataFrame) (name : String) (v : ℚ) : DataFrame :=
  ⟨df.nrows, setColAux df.cols name (List.replicate df.nrows v)⟩

/-- Read column `name` of `df`. -/
def getCol (df : DataFrame) (name : String) : List ℚ :=
  getColAux df.cols name

/-- Cell 32:
`def likelihood(parameters): L = 1.0; return L`. -/
def likelihood (_parameters : DataFrame) : ℚ := 1

/-- Cell 33:
`def weight_by_likelihood(parameters): parameters['weight'] = likelihood(parameters); return parameters`. -/
def weight_by_likelihood (parameters : DataFrame) : DataFrame :=
  setCol parameters "weight" (likelihood parameters)

/-- A heap of data-frame objects, to speak about aliasing: Python variables
hold references (`ℕ`) into the store. -/
def Store : Type := ℕ → DataFrame

/-- Cell 34's call `weight_by_likelihood(datafr)` at the reference level:
the function mutates the referenced frame in the store and returns the very
same reference (`return parameters`). -/
def weight_by_likelihood_ref (r : ℕ) (σ : Store) : ℕ × Store :=
  (r, fun j => if j = r then weight_by_likelihood (σ j) else σ j)

end PdModel

namespace Loop

/-!
The "Simple Monte Carlo" loop body of cell 26.  The cell reads several names
(`z`, hence `mu`, and `mb_obs`, `x1_obs`, `c_obs`) that nothing in the
notebook defines (see the `Nb` model below); the arithmetic it would perform
is embedded here as a function of those free names and of the candidate draw
of one loop iteration. -/

/-- One candidate draw of cell 26's loop: the scalar hyperparameter columns
and the per-object latent columns of `datafr`, in the order the cell fills
them (`alpha`, `beta`, `MB`, `sigma_int`, `Omega_m`, `x1_true`, `c_true`). -/
structure Candidate where
  alpha : ℚ
  beta : ℚ
  MB : ℚ
  sigma_int : ℚ
  Omega_m : ℚ
  x1_true : ℕ → ℚ
  c_true : ℕ → ℚ

/-- Cell 26: `def LogGaussian(x,mu,sig): return -0.5*(x-mu)**2 /sig**2`. -/
def LogGaussian (x mu sig : ℚ) : ℚ := -(1/2) * (x - mu) ^ 2 / sig ^ 2

/-- Cell 26: `mb_true = datafr['MB'] - datafr['alpha']*datafr['x1_true'] + datafr['beta']*datafr['c_true'] + mu`. -/
def mb_true (cand : Candidate) (mu : ℕ → ℚ) (i : ℕ) : ℚ :=
  cand.MB - cand.alpha * cand.x1_true i + cand.beta * cand.c_true i + mu i

/-- Cell 26: `likelihood_mobs = LogGaussian(mb_obs, mb_true, datafr['sigma_int']**2)` —
note the squared `sigma_int` passed where `LogGaussian` expects `sig`. -/
def likelihood_mobs (cand : Candidate) (mu mb_obs : ℕ → ℚ) (i : ℕ) : ℚ :=
  LogGaussian (mb_obs i) (mb_true cand mu i) (cand.sigma_int ^ 2)

/-- Cell 26: `likelihood_x1 = LogGaussian(x1_obs, datafr['x1_true'], 0.5**2)`. -/
def likelihood_x1 (cand : Candidate) (x1_obs : ℕ → ℚ) (i : ℕ) : ℚ :=
  LogGaussian (x1_obs i) (cand.x1_true i) ((1/2) ^ 2)

/-- Cell 26: `likelihood_c = LogGaussian(c_obs, datafr['c_true'], 0.5**2)`. -/
def likelihood_c (cand : Candidate) (c_obs : ℕ → ℚ) (i : ℕ) : ℚ :=
  LogGaussian (c_obs i) (cand.c_true i) ((1/2) ^ 2)

/-- Cell 26: `likelihood = np.sum([likelihood_mobs, likelihood_x1, likelihood_c])` —
`np.sum` of the stacked per-object arrays collapses everything (all `nSN`
objects and all three components) into one scalar. -/
def likelihood (cand : Candidate) (mu mb_obs x1_obs c_obs : ℕ → ℚ) (nSN : ℕ) : ℚ :=
  ∑ i ∈ Finset.range nSN,
    (likelihood_mobs cand mu mb_obs i + likelihood_x1 cand x1_obs i +
      likelihood_c cand c_obs i)

end Loop

namespace Nb

/-!
Name-binding model of the notebook, for the execution-order claims.  Each
code cell is transcribed as its list of statements; a statement records the
names it binds and the names it reads, with `rhs = none` marking a statement
whose right-hand side is missing from the source (Python: `SyntaxError`).
Loop bodies are flattened into the enclosing cell's statement list, and
attribute/item accesses read their base name. -/

/-- A Python statement: bound names and, when the statement is syntactically
complete, the names its right-hand side reads. -/
structure PyStmt where
  lhs : List String
  rhs : Option (List String)
deriving DecidableEq

/-- A notebook code cell: its statements in order. -/
structure PyCell where
  stmts : List PyStmt
deriving DecidableEq

/-- A cell compiles iff every statement has a right-hand side. -/
def cellOk (c : PyCell) : Bool := c.stmts.all (fun s => s.rhs.isSome)

/-- All names a cell binds. -/
def cellBinds (c : PyCell) : List String := (c.stmts.map PyStmt.lhs).flatten

/-- All names a cell reads. -/
def cellReads (c : PyCell) : List String := (c.stmts.map (fun s => s.rhs.getD [])).flatten

/-- Run-all semantics: cells execute in order and execution stops at the
first cell that fails to compile. -/
def executedCells (cells : List PyCell) : List PyCell := cells.takeWhile cellOk

/-- Names bound by the cells a run-all execution actually reaches. -/
def bindsOfRun (cells : List PyCell) : List String :=
  ((executedCells cells).map cellBinds).flatten

/-- Cell 6: the import cell (`import scipy as sp`, `import numpy as np`,
`import sncosmo`, `matplotlib.pylab as plt`, `from astropy.cosmology import
FlatLambdaCDM`, plus the matplotlib magic). -/
def cell06 : PyCell :=
  ⟨[⟨["sp"], some []⟩, ⟨["np"], some []⟩, ⟨["sncosmo"], some []⟩,
    ⟨["plt"], some []⟩, ⟨["FlatLambdaCDM"], some []⟩, ⟨[], some []⟩]⟩

/-- Cell 8: `size_we_want = 250`. -/
def cell08 : PyCell := ⟨[⟨["size_we_want"], some []⟩]⟩

/-- Cell 10: `x1_true_dist = np.random.normal(...)`. -/
def cell10 : PyCell := ⟨[⟨["x1_true_dist"], some ["np", "size_we_want"]⟩]⟩

/-- Cell 12: `x1_obs_unc = ...` and `x1_obs_dist = ...`. -/
def cell12 : PyCell :=
  ⟨[⟨["x1_obs_unc"], some ["np", "x1_true_dist"]⟩,
    ⟨["x1_obs_dist"], some ["x1_true_dist", "x1_obs_unc", "np", "size_we_want"]⟩]⟩

/-- Cell 14: the five colour-population assignments. -/
def cell14 : PyCell :=
  ⟨[⟨["c_true_norm"], some ["np", "size_we_want"]⟩,
    ⟨["c_true_exp"], some ["np", "size_we_want"]⟩,
    ⟨["c_true_dist"], some ["np", "c_true_norm", "c_true_exp"]⟩,
    ⟨["c_obs_unc"], some ["np", "c_true_dist"]⟩,
    ⟨["c_obs_dist"], some ["c_true_dist", "c_obs_unc", "np", "size_we_want"]⟩]⟩

/-- Cell 16: `z_dist = np.random.uniform(0.2, 1.0, size=size_we_want)`. -/
def cell16 : PyCell := ⟨[⟨["z_dist"], some ["np", "size_we_want"]⟩]⟩

/-- Cell 18: the five constant assignments. -/
def cell18 : PyCell :=
  ⟨[⟨["alpha"], some []⟩, ⟨["beta"], some []⟩, ⟨["MB"], some []⟩,
    ⟨["Omega_m"], some []⟩, ⟨["sigma_int"], some []⟩]⟩

/-- Cell 20: `cosmo = FlatLambdaCDM(H0=70, Om0=Omega_m)` and
`mu_dist = cosmo.distmod(z_dist).value`. -/
def cell20 : PyCell :=
  ⟨[⟨["cosmo"], some ["FlatLambdaCDM", "Omega_m"]⟩,
    ⟨["mu_dist"], some ["cosmo", "z_dist"]⟩]⟩

/-- Cell 22: `mb_true_mean = ...`, `mb_true_var = sigma_int**2`, and the
incomplete `mb_true = ` whose right-hand side is missing (SyntaxError). -/
def cell22 : PyCell :=
  ⟨[⟨["mb_true_mean"],
      some ["MB", "alpha", "x1_true_dist", "beta", "c_true_dist", "mu_dist"]⟩,
    ⟨["mb_true_var"], some ["sigma_int"]⟩,
    ⟨["mb_true"], none⟩]⟩

/-- Cell 23: `plt.figure()` and `plt.hist(mb_true_dist)`. -/
def cell23 : PyCell :=
  ⟨[⟨[], some ["plt"]⟩, ⟨[], some ["plt", "mb_true_dist"]⟩]⟩

/-- Cell 25: `import pandas as pd`, `par_labels = [...]`,
`datafr = pd.DataFrame(np.ones((10,len(par_labels))),columns=par_labels)`,
and the trailing display expression. -/
def cell25 : PyCell :=
  ⟨[⟨["pd"], some []⟩, ⟨["par_labels"], some []⟩,
    ⟨["datafr"], some ["pd", "np", "par_labels"]⟩, ⟨[], some ["datafr"]⟩]⟩

/-- Cell 26: the Simple Monte Carlo cell, with the `for i in range(N)` body
flattened.  It reads `z` (for `mu = cosmo.distmod(z).value`), `scipy`
(only `sp` and `np` are imported when it runs), and `mb_obs`, `x1_obs`,
`c_obs` inside the three `LogGaussian` calls. -/
def cell26 : PyCell :=
  ⟨[⟨["N"], some []⟩, ⟨["nSN"], some []⟩,
    ⟨["cosmo"], some ["FlatLambdaCDM", "Omega_m"]⟩,
    ⟨["mu"], some ["cosmo", "z"]⟩,
    ⟨["LogGaussian"], some []⟩,
    ⟨["schain"], some []⟩,
    ⟨["i"], some ["N"]⟩,
    ⟨["datafr"], some ["pd", "np", "nSN", "par_labels"]⟩,
    ⟨[], some ["datafr", "scipy"]⟩,
    ⟨[], some ["datafr", "scipy"]⟩,
    ⟨[], some ["datafr", "scipy"]⟩,
    ⟨[], some ["datafr", "scipy"]⟩,
    ⟨[], some ["datafr", "scipy"]⟩,
    ⟨[], some ["datafr", "scipy", "nSN"]⟩,
    ⟨[], some ["datafr", "scipy", "nSN"]⟩,
    ⟨["mb_true"], some ["datafr", "mu"]⟩,
    ⟨["likelihood_mobs"], some ["LogGaussian", "mb_obs", "mb_true", "datafr"]⟩,
    ⟨["likelihood_x1"], some ["LogGaussian", "x1_obs", "datafr"]⟩,
    ⟨["likelihood_c"], some ["LogGaussian", "c_obs", "datafr"]⟩,
    ⟨["likelihood"], some ["np", "likelihood_mobs", "likelihood_x1", "likelihood_c"]⟩,
    ⟨[], some ["schain", "datafr"]⟩]⟩

/-- Cell 27: `schain = []` and `schain.append(datafr[[...]])`. -/
def cell27 : PyCell :=
  ⟨[⟨["schain"], some []⟩, ⟨[], some ["schain", "datafr"]⟩]⟩

/-- Cell 28: `params = dict(par_labels)`. -/
def cell28 : PyCell := ⟨[⟨["params"], some ["par_labels"]⟩]⟩

/-- Cell 29: `import scipy.stats`, `datafr['alpha'] = scipy.stats.norm.rvs()`,
and the trailing display expression. -/
def cell29 : PyCell :=
  ⟨[⟨["scipy"], some []⟩, ⟨[], some ["datafr", "scipy"]⟩, ⟨[], some ["datafr"]⟩]⟩

/-- Cell 30: `datafr = datafr.apply(lambda x: np.random.normal(size=x.size))`. -/
def cell30 : PyCell := ⟨[⟨["datafr"], some ["datafr", "np"]⟩]⟩

/-- Cell 31: `datafr.describe()`. -/
def cell31 : PyCell := ⟨[⟨[], some ["datafr"]⟩]⟩

/-- Cell 32: `def likelihood(parameters): ...`. -/
def cell32 : PyCell := ⟨[⟨["likelihood"], some []⟩]⟩

/-- Cell 33: `def weight_by_likelihood(parameters): ...`. -/
def cell33 : PyCell := ⟨[⟨["weight_by_likelihood"], some []⟩]⟩

/-- Cell 34: `weight_by_likelihood(datafr);`. -/
def cell34 : PyCell := ⟨[⟨[], some ["weight_by_likelihood", "datafr"]⟩]⟩

/-- Cell 35: the two histogram calls. -/
def cell35 : PyCell :=
  ⟨[⟨[], some ["plt"]⟩, ⟨[], some ["plt", "datafr"]⟩, ⟨[], some ["plt", "np"]⟩]⟩

/-- The notebook's code cells in order. -/
def notebookCells : List PyCell :=
  [cell06, cell08, cell10, cell12, cell14, cell16, cell18, cell20, cell22,
   cell23, cell25, cell26, cell27, cell28, cell29, cell30, cell31, cell32,
   cell33, cell34, cell35]

/-- Every name bound by any cell of the notebook, regardless of execution
order. -/
def allBinds : List String := (notebookCells.map cellBinds).flatten

end Nb

/-!
Theorems settling the claims, in claim order.
-/

/-- Claim C1: `likelihood(parameters)` returns the constant 1.0 and ignores its
argument entirely — any two inputs yield the same result. -/
theorem c1_likelihood_constant (p q : PdModel.DataFrame) :
    PdModel.likelihood p = 1 ∧ PdModel.likelihood p = PdModel.likelihood q :=
  ⟨rfl, rfl⟩

/-- Claim C2 (code bug): the Simple Monte Carlo cell (cell 26) reads the names
`z`, `mb_obs`, `x1_obs` and `c_obs`, yet no cell of the notebook ever binds any
of them (the generator binds `x1_obs_dist`, `c_obs_dist`, `z_dist` instead), so
the cell raises `NameError` before any per-candidate log-weight can be produced,
let alone attached to the stored candidates. -/
theorem c2_sampling_cell_reads_undefined_names :
    ("z" ∈ Nb.cellReads Nb.cell26 ∧ "mb_obs" ∈ Nb.cellReads Nb.cell26 ∧
      "x1_obs" ∈ Nb.cellReads Nb.cell26 ∧ "c_obs" ∈ Nb.cellReads Nb.cell26) ∧
    ("z" ∉ Nb.allBinds ∧ "mb_obs" ∉ Nb.allBinds ∧
      "x1_obs" ∉ Nb.allBinds ∧ "c_obs" ∉ Nb.allBinds) := by
  decide

/-- Claim C3, counterexample: the two candidates below agree on every quantity
the claimed formula reads — the observations, the per-object latents, the fixed
measurement uncertainties and the hyperparameters of the latent priors — and
differ only in `sigma_int`; the claimed sum of three fixed-σ observation
log-densities plus the latent log-prior would therefore assign both the same
value, but the code's likelihood scalar differs (it divides the `mb` residual
by `sigma_int⁴` because `datafr['sigma_int']**2` is passed where `LogGaussian`
expects a standard deviation, and it adds no log-prior or normalization term:
at zero residuals its value is exactly 0, never the claimed negative
log-normalization constants). -/
theorem c3_counterexample :
    Loop.likelihood ⟨0, 0, 0, 1, 0, fun _ => 0, fun _ => 0⟩
        (fun _ => 0) (fun _ => 1) (fun _ => 0) (fun _ => 0) 1 = -(1/2) ∧
    Loop.likelihood ⟨0, 0, 0, 2, 0, fun _ => 0, fun _ => 0⟩
        (fun _ => 0) (fun _ => 1) (fun _ => 0) (fun _ => 0) 1 = -(1/32) ∧
    (-(1/2) : ℚ) ≠ -(1/32) := by
  refine ⟨?_, ?_, by norm_num⟩ <;>
    norm_num [Loop.likelihood, Loop.likelihood_mobs, Loop.likelihood_x1,
      Loop.likelihood_c, Loop.mb_true, Loop.LogGaussian]

/-- Claim C3, amended: the code's per-iteration likelihood is the single scalar
`Σ_{i<nSN} [ −(mb_obs i − mb_true i)² / (2·sigma_int⁴) − 8·(x1_obs i − x1_true i)²
− 8·(c_obs i − c_true i)² ]`: three unnormalized Gaussian exponents with the
variance passed where `LogGaussian` expects the standard deviation (so the `mb`
term divides by `sigma_int⁴` and the `x1`/`c` terms by `(0.5²)² = 1/16`), with
no normalization constants and no log-prior of the per-object latents. -/
theorem c3_amended_likelihood_formula (cand : Loop.Candidate)
    (mu mb_obs x1_obs c_obs : ℕ → ℚ) (nSN : ℕ) :
    Loop.likelihood cand mu mb_obs x1_obs c_obs nSN =
      ∑ i ∈ Finset.range nSN,
        (-(mb_obs i - Loop.mb_true cand mu i) ^ 2 / (2 * cand.sigma_int ^ 4)
          - 8 * (x1_obs i - cand.x1_true i) ^ 2
          - 8 * (c_obs i - cand.c_true i) ^ 2) := by
  refine Finset.sum_congr rfl fun i _ => ?_
  simp only [Loop.likelihood_mobs, Loop.likelihood_x1, Loop.likelihood_c,
    Loop.LogGaussian]
  ring

/-- Claim C4, counterexample: on a two-row frame the weights written by
`weight_by_likelihood` are `[1, 1]` and sum to 2, not 1 — the function performs
no normalization at all. -/
theorem c4_counterexample :
    (PdModel.getCol (PdModel.weight_by_likelihood ⟨2, [("alpha", [1, 1])]⟩)
        "weight").sum = 2 ∧ (2 : ℚ) ≠ 1 := by
  constructor
  · norm_num [PdModel.getCol, PdModel.weight_by_likelihood, PdModel.setCol,
      PdModel.likelihood, PdModel.setColAux, PdModel.getColAux, List.replicate]
  · norm_num

/-- Helper: reading back the column just written by `setColAux`. -/
theorem getColAux_setColAux_self (cols : List (String × List ℚ))
    (name : String) (w : List ℚ) :
    PdModel.getColAux (PdModel.setColAux cols name w) name = w := by
  induction cols with
  | nil => simp [PdModel.setColAux, PdModel.getColAux]
  | cons p rest ih =>
    by_cases h : p.1 = name
    · simp [PdModel.setColAux, PdModel.getColAux, h]
    · simp [PdModel.setColAux, PdModel.getColAux, h, ih]

/-- Helper: `setColAux` leaves every other column untouched. -/
theorem getColAux_setColAux_ne (cols : List (String × List ℚ))
    (name c : String) (w : List ℚ) (hc : c ≠ name) :
    PdModel.getColAux (PdModel.setColAux cols name w) c =
      PdModel.getColAux cols c := by
  have hnc : name ≠ c := fun h => hc h.symm
  induction cols with
  | nil => simp [PdModel.setColAux, PdModel.getColAux, hnc]
  | cons p rest ih =>
    by_cases h : p.1 = name
    · have hpc : p.1 ≠ c := by rw [h]; exact hnc
      simp [PdModel.setColAux, PdModel.getColAux, h, hnc, hpc]
    · by_cases hpc : p.1 = c
      · simp [PdModel.setColAux, PdModel.getColAux, h, hpc, hc]
      · simp [PdModel.setColAux, PdModel.getColAux, h, hpc, ih]

/-- Claim C4, amended: `weight_by_likelihood` gives every row the constant
weight 1.0 with no normalization, so on any frame the weight column is a list
of ones whose sum is the row count — equal to 1 exactly when there is one row,
and never renormalized for larger ensembles. -/
theorem c4_amended_weights_sum_to_rowcount (df : PdModel.DataFrame) :
    PdModel.getCol (PdModel.weight_by_likelihood df) "weight" =
      List.replicate df.nrows 1 ∧
    (PdModel.getCol (PdModel.weight_by_likelihood df) "weight").sum =
      (df.nrows : ℚ) := by
  have h : PdModel.getCol (PdModel.weight_by_likelihood df) "weight" =
      List.replicate df.nrows 1 :=
    getColAux_setColAux_self df.cols "weight" (List.replicate df.nrows 1)
  refine ⟨h, ?_⟩
  rw [h, List.sum_replicate, nsmul_eq_mul, mul_one]

/-- Claim C5: each observed field is its true value plus its own independent
noise coordinate scaled by the fixed per-field uncertainty (0.5 for `x1`, 0.5
for `c`, 0.05 for `mb`), and each observed value reads only its own object's
coordinate of its own field's noise stream: changing the stream at any other
object index `j ≠ i` leaves object `i`'s observed value unchanged (the three
fields draw from disjoint fresh streams, so cross-field independence is
structural). -/
theorem c5_observed_eq_true_plus_noise
    (g gn gc ge gcn mbt gmn : ℕ → ℚ) (i j : ℕ) (v : ℚ) (hij : i ≠ j) :
    (SN.x1_obs_dist g gn i = SN.x1_true_dist g i + (1/2) * gn i ∧
      SN.c_obs_dist gc ge gcn i = SN.c_true_dist gc ge i + (1/2) * gcn i ∧
      SN.mb_obs_dist mbt gmn i = mbt i + (1/20) * gmn i) ∧
    (SN.x1_obs_dist g (Function.update gn j v) i = SN.x1_obs_dist g gn i ∧
      SN.c_obs_dist gc ge (Function.update gcn j v) i = SN.c_obs_dist gc ge gcn i ∧
      SN.mb_obs_dist mbt (Function.update gmn j v) i = SN.mb_obs_dist mbt gmn i) := by
  refine ⟨⟨rfl, rfl, rfl⟩, ?_, ?_, ?_⟩ <;>
    simp [SN.x1_obs_dist, SN.c_obs_dist, SN.mb_obs_dist,
      Function.update_noteq hij]

/-- Witness for C5 at concrete streams and indices. -/
theorem c5_witness :
    (SN.x1_obs_dist (fun n => (n : ℚ)) (fun n => (n : ℚ)) 0 =
        SN.x1_true_dist (fun n => (n : ℚ)) 0 + (1/2) * (0 : ℚ) ∧
      SN.c_obs_dist (fun n => (n : ℚ)) (fun n => (n : ℚ)) (fun n => (n : ℚ)) 0 =
        SN.c_true_dist (fun n => (n : ℚ)) (fun n => (n : ℚ)) 0 + (1/2) * (0 : ℚ) ∧
      SN.mb_obs_dist (fun n => (n : ℚ)) (fun n => (n : ℚ)) 0 =
        (0 : ℚ) + (1/20) * (0 : ℚ)) ∧
    (SN.x1_obs_dist (fun n => (n : ℚ)) (Function.update (fun n => (n : ℚ)) 1 7) 0 =
        SN.x1_obs_dist (fun n => (n : ℚ)) (fun n => (n : ℚ)) 0 ∧
      SN.c_obs_dist (fun n => (n : ℚ)) (fun n => (n : ℚ))
          (Function.update (fun n => (n : ℚ)) 1 7) 0 =
        SN.c_obs_dist (fun n => (n : ℚ)) (fun n => (n : ℚ)) (fun n => (n : ℚ)) 0 ∧
      SN.mb_obs_dist (fun n => (n : ℚ)) (Function.update (fun n => (n : ℚ)) 1 7) 0 =
        SN.mb_obs_dist (fun n => (n : ℚ)) (fun n => (n : ℚ)) 0) :=
  c5_observed_eq_true_plus_noise (fun n => (n : ℚ)) (fun n => (n : ℚ))
    (fun n => (n : ℚ)) (fun n => (n : ℚ)) (fun n => (n : ℚ)) (fun n => (n : ℚ))
    (fun n => (n : ℚ)) 0 1 7 (by decide)

/-- Claim C6 (code bug): cell 22 computes the claimed deterministic part —
`mb_true_mean = MB - alpha*x1_true + beta*c_true + mu` with the notebook's
constants — and the intended scatter variance `mb_true_var = sigma_int² =
0.0225`, but the assignment `mb_true = ` has no right-hand side, so the cell
fails to compile and the intrinsic-scatter draw is never added: `mb_true` is
never assigned. -/
theorem c6_mb_true_assignment_incomplete :
    Nb.cellOk Nb.cell22 = false ∧
    (∀ (g gc ge mu : ℕ → ℚ) (i : ℕ),
      SN.mb_true_mean g gc ge mu i =
        SN.MB - SN.alpha * SN.x1_true_dist g i +
          SN.beta * SN.c_true_dist gc ge i + mu i) ∧
    SN.mb_true_var = 9/400 := by
  refine ⟨rfl, fun g gc ge mu i => rfl, ?_⟩
  norm_num [SN.mb_true_var, SN.sigma_int]

/-- Claim C7, counterexample: a zero (hence non-positive) scale parameter is
accepted without any error — the colour generation succeeds and returns a
degenerate draw, so no `InvalidParameter` rejection happens (indeed the
notebook defines no such error at all). -/
theorem c7_counterexample :
    ((0 : ℚ) ≤ 0) ∧ NpModel.c_true_gen 0 1 1 = Except.ok 0 := by
  constructor
  · exact le_refl 0
  · norm_num [NpModel.c_true_gen, NpModel.np_random_normal,
      NpModel.np_random_exponential]

/-- Claim C7, amended: the notebook performs no parameter validation of its own
and defines no `InvalidParameter` error.  A strictly negative scale makes the
numpy draw itself fail with numpy's `ValueError` at sampling time (not before),
a zero scale is accepted and yields a degenerate draw, and the notebook's
redshifts are drawn from `uniform(0.2, 1.0)`, so `z ≤ 0` never arises and is
never checked (`Omega_m` is likewise fixed at 0.3 and passed to astropy
unchecked). -/
theorem c7_amended_no_validation (w gdraw edraw : ℚ) :
    (NpModel.c_true_gen w gdraw edraw =
      if w < 0 then Except.error NpModel.NpError.valueError
      else Except.ok (w * gdraw + w * edraw)) ∧
    (∀ u : ℚ, 0 ≤ u → 0 < NpModel.np_random_uniform (1/5) 1 u) := by
  constructor
  · by_cases hw : w < 0 <;>
      simp [NpModel.c_true_gen, NpModel.np_random_normal,
        NpModel.np_random_exponential, hw]
  · intro u hu
    have h45 : (0 : ℚ) ≤ (1 - 1/5) * u := by
      apply mul_nonneg _ hu
      norm_num
    simp only [NpModel.np_random_uniform]
    linarith

/-- Witness for C7's amended statement: a strictly negative scale yields
numpy's `ValueError` (not an `InvalidParameter`), and a concrete standard-
uniform draw gives a strictly positive redshift. -/
theorem c7_amended_witness :
    NpModel.c_true_gen (-1) 2 3 = Except.error NpModel.NpError.valueError ∧
    0 < NpModel.np_random_uniform (1/5) 1 (1/2) := by
  constructor
  · rw [(c7_amended_no_validation (-1) 2 3).1]
    norm_num
  · exact (c7_amended_no_validation (-1) 2 3).2 (1/2) (by norm_num)

/-- Claim C8: run in order, the notebook executes exactly the eight generator
cells before cell 22, whose final statement `mb_true = ` has no right-hand
side; execution halts there, so none of the inference cells runs — in
particular `likelihood`, `weight_by_likelihood` and `schain` are never
defined and no inference result is produced. -/
theorem c8_execution_halts_at_mb_true_cell :
    Nb.cellOk Nb.cell22 = false ∧
    Nb.executedCells Nb.notebookCells =
      [Nb.cell06, Nb.cell08, Nb.cell10, Nb.cell12, Nb.cell14, Nb.cell16,
        Nb.cell18, Nb.cell20] ∧
    "likelihood" ∉ Nb.bindsOfRun Nb.notebookCells ∧
    "weight_by_likelihood" ∉ Nb.bindsOfRun Nb.notebookCells ∧
    "schain" ∉ Nb.bindsOfRun Nb.notebookCells := by
  refine ⟨rfl, rfl, ?_, ?_, ?_⟩ <;> decide

/-- Claim C9: the Population Generator is a pure function of its draw streams,
so two runs whose seeded streams coincide (as they do under a fixed numpy
seed) produce identical `x1_true`, `x1_obs`, `c_true`, `c_obs` and redshift
catalogs, value for value. -/
theorem c9_generator_deterministic
    (g gn gc ge gcn u g' gn' gc' ge' gcn' u' : ℕ → ℚ)
    (h1 : g = g') (h2 : gn = gn') (h3 : gc = gc') (h4 : ge = ge')
    (h5 : gcn = gcn') (h6 : u = u') :
    SN.x1_true_dist g = SN.x1_true_dist g' ∧
    SN.x1_obs_dist g gn = SN.x1_obs_dist g' gn' ∧
    SN.c_true_dist gc ge = SN.c_true_dist gc' ge' ∧
    SN.c_obs_dist gc ge gcn = SN.c_obs_dist gc' ge' gcn' ∧
    SN.z_dist u = SN.z_dist u' := by
  subst h1 h2 h3 h4 h5 h6
  exact ⟨rfl, rfl, rfl, rfl, rfl⟩

/-- Witness for C9 at a concrete pair of equal streams. -/
theorem c9_witness :
    SN.x1_true_dist (fun n => (n : ℚ)) = SN.x1_true_dist (fun n => (n : ℚ)) ∧
    SN.x1_obs_dist (fun n => (n : ℚ)) (fun _ => 1) =
      SN.x1_obs_dist (fun n => (n : ℚ)) (fun _ => 1) ∧
    SN.c_true_dist (fun _ => 2) (fun _ => 3) =
      SN.c_true_dist (fun _ => 2) (fun _ => 3) ∧
    SN.c_obs_dist (fun _ => 2) (fun _ => 3) (fun _ => 4) =
      SN.c_obs_dist (fun _ => 2) (fun _ => 3) (fun _ => 4) ∧
    SN.z_dist (fun _ => 1/2) = SN.z_dist (fun _ => 1/2) :=
  c9_generator_deterministic (fun n => (n : ℚ)) (fun _ => 1) (fun _ => 2)
    (fun _ => 3) (fun _ => 4) (fun _ => 1/2) (fun n => (n : ℚ)) (fun _ => 1)
    (fun _ => 2) (fun _ => 3) (fun _ => 4) (fun _ => 1/2)
    rfl rfl rfl rfl rfl rfl

/-- Claim C10: `weight_by_likelihood(parameters)` returns the very reference it
was given, overwrites only that object in the store (every other reference is
untouched), leaves every column other than `weight` of the argument unchanged,
and writes the broadcast weight column in place. -/
theorem c10_weight_by_likelihood_in_place (r : ℕ) (σ : PdModel.Store) :
    (PdModel.weight_by_likelihood_ref r σ).1 = r ∧
    (∀ c : String, c ≠ "weight" →
      PdModel.getCol ((PdModel.weight_by_likelihood_ref r σ).2 r) c =
        PdModel.getCol (σ r) c) ∧
    (∀ j : ℕ, j ≠ r → (PdModel.weight_by_likelihood_ref r σ).2 j = σ j) ∧
    PdModel.getCol ((PdModel.weight_by_likelihood_ref r σ).2 r) "weight" =
      List.replicate (σ r).nrows 1 := by
  refine ⟨rfl, ?_, ?_, ?_⟩
  · intro c hc
    simp only [PdModel.weight_by_likelihood_ref, if_pos rfl]
    exact getColAux_setColAux_ne (σ r).cols "weight" c _ hc
  · intro j hj
    simp [PdModel.weight_by_likelihood_ref, hj]
  · simp only [PdModel.weight_by_likelihood_ref, if_pos rfl]
    exact getColAux_setColAux_self (σ r).cols "weight" _

/-- Witness for C10 at a concrete reference and store. -/
theorem c10_witness :
    (PdModel.weight_by_likelihood_ref 0
        (fun _ => ⟨1, [("alpha", [5])]⟩)).1 = 0 ∧
    PdModel.getCol ((PdModel.weight_by_likelihood_ref 0
        (fun _ => ⟨1, [("alpha", [5])]⟩)).2 0) "alpha" =
      PdModel.getCol ((fun _ => (⟨1, [("alpha", [5])]⟩ : PdModel.DataFrame)) 0)
        "alpha" ∧
    (PdModel.weight_by_likelihood_ref 0
        (fun _ => ⟨1, [("alpha", [5])]⟩)).2 1 =
      (fun _ => (⟨1, [("alpha", [5])]⟩ : PdModel.DataFrame)) 1 ∧
    PdModel.getCol ((PdModel.weight_by_likelihood_ref 0
        (fun _ => ⟨1, [("alpha", [5])]⟩)).2 0) "weight" =
      List.replicate 1 1 := by
  have h := c10_weight_by_likelihood_in_place 0
    (fun _ => (⟨1, [("alpha", [5])]⟩ : PdModel.DataFrame))
  exact ⟨h.1, h.2.1 "alpha" (by decide), h.2.2.1 1 (by decide), h.2.2.2⟩

